import Mathlib

/-!
# Verification of the gusto restaurant-discovery backend

Shallow embedding of the pure/deterministic parts of the repository's
Python code, with every external LLM / embedding / database-engine call
modelled as an explicit oracle parameter.  Numeric code is embedded over
`ℚ`.

Conventions:
* Python `str.lower()`  ↦ `pyLower` (ASCII, all inputs here are ASCII)
* Python `str.strip()`  ↦ `pyStrip`
* Python `sub in s`     ↦ `pyContains s sub`
* Python `round(x, 1)`  ↦ `pyRound1 x` (round-half-to-even at one decimal)
* A Python function that calls an LLM takes the LLM outcome as an oracle
  argument; an oracle answer of `none` models the call raising.
-/

/-- Python `str.lower()` (character-wise; all data in scope is ASCII). -/
def pyLower (s : String) : String := ⟨s.data.map Char.toLower⟩

/-- Whitespace-trimming on a character list, both ends. -/
def trimChars (l : List Char) : List Char :=
  ((l.dropWhile Char.isWhitespace).reverse.dropWhile Char.isWhitespace).reverse

/-- Python `str.strip()`. -/
def pyStrip (s : String) : String := ⟨trimChars s.data⟩

/-- Python substring test on char lists: `needle` occurs somewhere in the list. -/
def subOccurs (needle : List Char) : List Char → Bool
  | [] => needle.isEmpty
  | c :: t => needle.isPrefixOf (c :: t) || subOccurs needle t

/-- Python `sub in hay` for strings. -/
def pyContains (hay sub : String) : Bool :=
  subOccurs sub.data hay.data

/-- Python `" ".join(items)`. -/
def joinSpace (items : List String) : String :=
  ⟨ List.intercalate [' '] (items.map String.data)⟩

/-- Round-half-to-even to an integer, as Python `round` does on exact values. -/
def roundHalfEven (q : ℚ) : ℤ :=
  let f := ⌊q⌋
  let r := q - f
  if r < 1/2 then f
  else if 1/2 < r then f + 1
  else if f % 2 = 0 then f else f + 1

/-- Python `round(x, 1)`: one decimal digit, ties to even. -/
def pyRound1 (q : ℚ) : ℚ :=
  (roundHalfEven (10 * q) : ℚ) / 10

/-- Stable insertion of `x` into a list sorted descending by `key`:
`x` goes after every element whose key is at least `key x`. -/
def insertDescBy {α : Type} (key : α → ℚ) (x : α) : List α → List α
  | [] => [x]
  | y :: ys => if key y < key x then x :: y :: ys else y :: insertDescBy key x ys

/-- Stable descending sort by `key`, the result of Python
`list.sort(key=..., reverse=True)` (Timsort is stable). -/
def sortDescBy {α : Type} (key : α → ℚ) (l : List α) : List α :=
  l.foldl (fun acc x => insertDescBy key x acc) []

/-! ## `backend/integrations/embeddings.py` -/

/-- `combine_vectors(primary, secondary, secondary_weight=0.35)`:
weighted average of two vectors; an empty side yields the other side,
two empty sides yield the 6-dimensional zero vector. -/
def combine_vectors (primary secondary : List ℚ) (secondary_weight : ℚ) : List ℚ :=
  if primary = [] then (if secondary = [] then List.replicate 6 0 else secondary)
  else if secondary = [] then primary
  else
    let primary_weight := 1 - secondary_weight
    List.zipWith (fun p s => p * primary_weight + s * secondary_weight) primary secondary

/-- `calculate_cosine_similarity(vec1, vec2)`: `0.0` when either vector is
empty, otherwise the numeric cosine similarity, which sklearn computes in
floating point and which we model as the oracle `cos`. -/
def calculate_cosine_similarity (cos : List ℚ → List ℚ → ℚ) (vec1 vec2 : List ℚ) : ℚ :=
  if vec1 = [] ∨ vec2 = [] then 0 else cos vec1 vec2

/-! ## `backend/services/restaurant_service.py`: diet filtering -/

/-- The non-vegetarian keyword list of `restaurant_service.py`. -/
def NON_VEG_KEYWORDS : List String :=
  ["chicken", "mutton", "lamb", "beef", "pork", "fish", "prawn", "shrimp",
   "crab", "lobster", "meat", "bacon", "sausage", "ham", "turkey", "duck",
   "egg", "eggs", "omelette", "omelet", "seafood", "salmon", "tuna"]

/-- `is_nonveg_text(text)`: some non-veg keyword occurs in the lower-cased text. -/
def is_nonveg_text (text : String) : Bool :=
  NON_VEG_KEYWORDS.any (fun keyword => pyContains (pyLower text) keyword)

/-- `filter_dishes_by_diet(dishes, diet_type)`.  `diet_type = none` models
Python `None`; the empty string is likewise falsy in the source's
`if not diet_type` test. -/
def filter_dishes_by_diet (dishes : List String) (diet_type : Option String) : List String :=
  if dishes = [] then []
  else
    match diet_type with
    | none => dishes
    | some dt =>
      if dt = "" ∨ dt = "mix" ∨ dt = "any" ∨ dt = "all" then dishes
      else if dt = "veg" ∨ dt = "vegetarian" then
        dishes.filter (fun d => !is_nonveg_text d)
      else if dt = "non-veg" ∨ dt = "nonveg" ∨ dt = "non_veg" then
        dishes.filter (fun d => is_nonveg_text d)
      else dishes

/-! ## `backend/services/restaurant_service.py`: keyword allergy check -/

/-- `allergy_filter(menu_items, allergies)`: `true` (safe) iff no allergen
occurs, lower-cased, as a substring of the space-joined lower-cased menu text. -/
def allergy_filter (menu_items : List String) (allergies : List String) : Bool :=
  if allergies = [] then true
  else
    let menu_text := pyLower (joinSpace menu_items)
    !(allergies.any (fun allergen => pyContains menu_text (pyLower allergen)))

/-! ## `agents/tools/allergy_tools.py`: hybrid allergy filter -/

/-- The stats block of `filter_dishes_by_allergy_hybrid`'s JSON answer. -/
structure HybridStats where
  total_dishes : ℕ
  keyword_safe : ℕ
  ai_safe : ℕ
  intersection_safe : ℕ
  final_safe : ℕ
deriving DecidableEq

/-- The JSON answer of `filter_dishes_by_allergy_hybrid`.  The degenerate
branch returns `stats = {}`, modelled as `none`. -/
structure HybridResult where
  safe_dishes : List String
  method : String
  stats : Option HybridStats
deriving DecidableEq

/-- `keyword_safe = [d for d in dishes if allergy_filter([d], allergies)]`. -/
def hybridKeywordSafe (dishes allergies : List String) : List String :=
  dishes.filter (fun d => allergy_filter [d] allergies)

/-- `filter_dishes_by_allergy_hybrid(dishes, allergies)`.  The LLM filter
`filter_dishes_by_allergy` is the oracle `aiFilter` (the oracle is total, so
the source's exception fallback branches are unreachable here).  The Python
intersection is a `set` intersection whose enumeration order by
`list(set(...))` is implementation-defined; it is modelled as a duplicate-free
list, and the theorems speak only of its underlying `Finset` and counts. -/
def filter_dishes_by_allergy_hybrid (aiFilter : List String → List String → List String)
    (dishes allergies : List String) : HybridResult :=
  if dishes = [] ∨ allergies = [] then ⟨dishes, "none", none⟩
  else
    let keyword_safe := hybridKeywordSafe dishes allergies
    let ai_safe := aiFilter dishes allergies
    let intersection_safe := (keyword_safe.filter (fun d => d ∈ ai_safe)).dedup
    if intersection_safe.length = 0 ∧ 0 < ai_safe.length then
      ⟨ai_safe, "ai_fallback",
        some ⟨dishes.length, keyword_safe.length, ai_safe.length,
              intersection_safe.length, ai_safe.length⟩⟩
    else
      ⟨intersection_safe, "intersection",
        some ⟨dishes.length, keyword_safe.length, ai_safe.length,
              intersection_safe.length, intersection_safe.length⟩⟩

/-! ## `backend/services/taste_service.py`: favorites boost -/

/-- A favorite-dish record (`{"name": ..., "category": ...}` in the source);
`none` models an absent key, and the source also treats `""` as absent. -/
structure FavoriteDish where
  name : Option String
  category : Option String
deriving DecidableEq

/-- The truthy dish names of a favorites list, lower-cased, in order
(`[d.get("name", "").lower() for d in favorite_dishes if d.get("name")]`). -/
def favNamesLower (favorite_dishes : List FavoriteDish) : List String :=
  favorite_dishes.filterMap (fun d =>
    match d.name with
    | some s => if s = "" then none else some (pyLower s)
    | none => none)

/-- `favorites_boost(menu_items, favorite_dishes)`: `0.1` per favorite name
occurring, lower-cased, as a substring of some lower-cased menu item. -/
def favorites_boost (menu_items : List String) (favorite_dishes : List FavoriteDish) : ℚ :=
  if menu_items = [] ∨ favorite_dishes = [] then 0
  else
    let menu_lower := menu_items.map pyLower
    let fav_names := favNamesLower favorite_dishes
    let matchCount := (fav_names.filter
      (fun fav => menu_lower.any (fun menu => pyContains menu fav))).length
    matchCount * (1/10)

/-- The favorites boost as §4.9 of the spec words it: `0.1 ×` the count of
favorite-dish names that are case-insensitive substrings of, **or supersets
of**, any menu item.  Stated only to compare with the source's
`favorites_boost`, which has no superset direction. -/
def favorites_boost_specWorded (menu_items : List String)
    (favorite_dishes : List FavoriteDish) : ℚ :=
  if menu_items = [] ∨ favorite_dishes = [] then 0
  else
    ((favNamesLower favorite_dishes).filter
      (fun fav => menu_items.any (fun menu =>
        pyContains (pyLower menu) fav || pyContains fav (pyLower menu)))).length * (1/10)

/-! ## `backend/recipe_database.py` -/

/-- Length of the longest common prefix of two char lists. -/
def commonPrefixLen : List Char → List Char → ℕ
  | a :: as, b :: bs => if a = b then commonPrefixLen as bs + 1 else 0
  | _, _ => 0

/-- difflib `SequenceMatcher.find_longest_match` (no junk; autojunk is inert
because every string in scope is shorter than 200 characters): of all maximal
matching blocks, the one starting earliest in `a`, then earliest in `b`.
Returns `(i, j, size)`. -/
def bestBlock (a b : List Char) : ℕ × ℕ × ℕ :=
  (List.range a.length).foldl (fun best i =>
    (List.range b.length).foldl (fun best j =>
      let k := commonPrefixLen (a.drop i) (b.drop j)
      if k > best.2.2 then (i, j, k) else best) best) (0, 0, 0)

/-- Total number of matched characters of the Ratcliff/Obershelp recursion:
take the longest matching block, then recurse on the pieces to its left and
to its right.  The fuel argument only serves structural termination; the
top-level call supplies more fuel than the recursion depth can reach (each
level consumes at least one matched character of `a ++ b`). -/
def matchTotalF : ℕ → List Char → List Char → ℕ
  | 0, _, _ => 0
  | fuel + 1, a, b =>
    let ijk := bestBlock a b
    if ijk.2.2 = 0 then 0
    else
      matchTotalF fuel (a.take ijk.1) (b.take ijk.2.1) + ijk.2.2
        + matchTotalF fuel (a.drop (ijk.1 + ijk.2.2)) (b.drop (ijk.2.1 + ijk.2.2))

/-- Matched-character total of difflib `SequenceMatcher.get_matching_blocks`. -/
def matchTotal (a b : List Char) : ℕ :=
  matchTotalF (a.length + b.length + 1) a b

/-- `similarity_score(str1, str2)`: the difflib `ratio()` of the two
lower-cased strings, `2*M/T` where `M` is the matched-character total and `T`
the sum of the lengths (`1.0` when both are empty). -/
def similarity_score (str1 str2 : String) : ℚ :=
  if (pyLower str1).data.length + (pyLower str2).data.length = 0 then 1
  else ((2 * matchTotal (pyLower str1).data (pyLower str2).data : ℕ) : ℚ)
    / (((pyLower str1).data.length + (pyLower str2).data.length : ℕ) : ℚ)

/-- A parsed `flavor_profile` column. -/
structure FlavorProfile where
  sweet : ℚ
  salty : ℚ
  sour : ℚ
  bitter : ℚ
  umami : ℚ
  spicy : ℚ
deriving DecidableEq

/-- One loaded recipe row (`recipe_data` in `load_recipes_database`):
`name` is the lower-cased, stripped CSV name. -/
structure Recipe where
  id : String
  name : String
  original_name : String
  ingredients : List String
  flavor_profile : FlavorProfile
deriving DecidableEq

/-- Lookup in `_recipes_cache`: the dict is keyed by lower-cased name and a
later row with the same name overwrites an earlier one, so the last match in
load order wins. -/
def lookupDict (recipes : List Recipe) (key : String) : Option Recipe :=
  recipes.foldl (fun acc r => if r.name = key then some r else acc) none

/-- One step of the fuzzy-match loop of `search_recipe_by_name`:
`if score > best_score: best_score, best_match = score, recipe`. -/
def fuzzyStep (key : String) (best : Option Recipe × ℚ) (r : Recipe) : Option Recipe × ℚ :=
  if similarity_score key r.name > best.2 then (some r, similarity_score key r.name) else best

/-- `search_recipe_by_name(dish_name, threshold=0.6)`: exact match on the
lower-cased stripped name first, else the fuzzy scan over the first 10,000
loaded rows starting from `best_score = threshold` and improving only on a
strictly greater score. -/
def search_recipe_by_name (recipes : List Recipe) (dish_name : String)
    (threshold : ℚ) : Option Recipe :=
  if recipes = [] then none
  else
    match lookupDict recipes (pyStrip (pyLower dish_name)) with
    | some recipe => some recipe
    | none =>
      ((recipes.take 10000).foldl
        (fuzzyStep (pyStrip (pyLower dish_name))) (none, threshold)).1

/-! ## `backend/services/restaurant_service.py`: location matching -/

/-- A regex word character (`\w`, ASCII): letter, digit or underscore. -/
def isWordChar (c : Char) : Bool := c.isAlphanum || c = '_'

/-- Whether position `i` of `text` holds a word character (out of range:
not a word character, as regex treats the outside of the string). -/
def charAtIsWord (text : List Char) (i : ℕ) : Bool :=
  match text[i]? with
  | some c => isWordChar c
  | none => false

/-- Python `re.search` for the pattern `r'\b' + re.escape(pat) + r'\b'`:
`pat` occurs literally at some position with a word/non-word transition at
both ends. -/
def reSearchWB (pat text : List Char) : Bool :=
  (List.range (text.length + 1)).any fun i =>
    pat.isPrefixOf (text.drop i)
    && ((match pat.head? with | some c => isWordChar c | none => false)
        != (if i = 0 then false else charAtIsWord text (i - 1)))
    && ((match pat.getLast? with | some c => isWordChar c | none => false)
        != charAtIsWord text (i + pat.length))

/-- One anchored attempt of the pattern `r',\s*([A-Z]{2})\b'`: a comma, then
greedy whitespace, then two upper-case letters followed by a non-word
position; yields the captured two letters. -/
def stateCodeAt : List Char → Option (Char × Char)
  | ',' :: rest =>
    match rest.dropWhile Char.isWhitespace with
    | c1 :: c2 :: rest2 =>
      if ('A' ≤ c1 ∧ c1 ≤ 'Z') ∧ ('A' ≤ c2 ∧ c2 ≤ 'Z')
          ∧ !(match rest2.head? with | some c => isWordChar c | none => false) then
        some (c1, c2)
      else none
    | _ => none
  | _ => none

/-- Python `re.search(r',\s*([A-Z]{2})\b', text)`: the first position at
which the anchored attempt succeeds, scanning left to right. -/
def findStateCode : List Char → Option (Char × Char)
  | [] => none
  | c :: rest =>
    match stateCodeAt (c :: rest) with
    | some p => some p
    | none => findStateCode rest

/-- `us_indicators` of `check_location_match`. -/
def us_indicators : List String :=
  [", us", "united states", ", ny", ", ca", ", tx", ", fl"]

/-- `non_us_countries` of `check_location_match`. -/
def non_us_countries : List String :=
  ["mexico", "canada", "uk", "france", "italy", "spain", "india", "china", "japan"]

/-- `city_regions` of `check_location_match`, in the source's insertion
order (the dict iterates in that order, so a later matching key wins). -/
def city_regions : List (String × String) :=
  [("san francisco", "bay_area"), ("san jose", "bay_area"), ("oakland", "bay_area"),
   ("berkeley", "bay_area"), ("palo alto", "bay_area"), ("mountain view", "bay_area"),
   ("sunnyvale", "bay_area"),
   ("new york", "nyc_metro"), ("brooklyn", "nyc_metro"), ("manhattan", "nyc_metro"),
   ("queens", "nyc_metro"), ("bronx", "nyc_metro"), ("staten island", "nyc_metro"),
   ("los angeles", "la"), ("chicago", "chicago"), ("boston", "boston"),
   ("seattle", "seattle"), ("portland", "portland"), ("austin", "austin"),
   ("miami", "miami"), ("atlanta", "atlanta")]

/-- The `for city, region in city_regions.items()` loop for one location:
the region of the last table entry occurring in the lowered location. -/
def regionOf (loc : String) : Option String :=
  city_regions.foldl (fun acc cr => if pyContains loc cr.1 then some cr.2 else acc) none

/-- The fast-path portion of `check_location_match` (its lines up to the LLM
call): `some b` when one of the four heuristics returns, `none` when they are
all inconclusive and control reaches the `try` block around the LLM call.
Note the source computes `u_has_us` from `r_loc` (the restaurant string), not
from `u_loc`; this is translated as written. -/
def check_location_match_fast (user_location restaurant_location : String) : Option Bool :=
  if user_location = "" ∨ restaurant_location = "" then some false
  else
    let u_loc := pyStrip (pyLower user_location)
    let r_loc := pyStrip (pyLower restaurant_location)
    let u_city := pyStrip ⟨u_loc.data.takeWhile (fun c => c ≠ ',')⟩
    if u_city ≠ "" ∧ pyContains r_loc u_city ∧ reSearchWB u_city.data r_loc.data then
      some true
    else
      let u_has_us := us_indicators.any (fun ind => pyContains r_loc ind)
      let u_has_non_us := non_us_countries.any (fun country => pyContains u_loc country)
      let r_has_us := us_indicators.any (fun ind => pyContains r_loc ind)
      let r_has_non_us := non_us_countries.any (fun country => pyContains r_loc country)
      if (u_has_non_us && r_has_us) || (u_has_us && r_has_non_us) then some false
      else
        match regionOf u_loc, regionOf r_loc with
        | some user_region, some restaurant_region =>
          if user_region = restaurant_region then some true else some false
        | _, _ =>
          match findStateCode user_location.data, findStateCode restaurant_location.data with
          | some user_state, some rest_state =>
            if user_state ≠ rest_state then some false else none
          | _, _ => none

/-- `check_location_match(user_location, restaurant_location)`: the source
function returns out of each fast path before its final LLM call, so it is
the fast-path portion followed, only on fall-through, by the LLM outcome.
`llm u r = some b` models the Groq call answering (`b` = whether "yes" is in
the reply); `llm u r = none` models the call raising, in which case the
source's `except` handler falls off the end of the function and Python
returns `None`. -/
def check_location_match (llm : String → String → Option Bool)
    (user_location restaurant_location : String) : Option Bool :=
  match check_location_match_fast user_location restaurant_location with
  | some b => some b
  | none => llm user_location restaurant_location

/-! ## `backend/services/recommendation_service.py`: per-restaurant dish ranking -/

/-- A menu entry of `dish_recommendations_for_restaurant`: either a plain
dish name (legacy string input, `taste = none`) or a `{name, taste}` record
with a pre-computed taste vector. -/
structure DishEntry where
  name : String
  taste : Option (List ℚ)
deriving DecidableEq

/-- One entry of the returned list: `{"name": ..., "similarity": ...}` with
the similarity already converted to a rounded percentage. -/
structure DishScore where
  name : String
  similarity : ℚ
deriving DecidableEq

/-- `taste_similarity(user_vec, item_vec)` = `calculate_cosine_similarity`. -/
def taste_similarity (cos : List ℚ → List ℚ → ℚ) (user_vec item_vec : List ℚ) : ℚ :=
  calculate_cosine_similarity cos user_vec item_vec

/-- The taste vector used for a dish: the pre-computed one when present and
truthy (a non-empty list), else the one inferred on the fly
(`infer_taste_from_text_hybrid`, an external call modelled by `infer`). -/
def dishTasteOf (infer : String → List ℚ) (dish : DishEntry) : List ℚ :=
  match dish.taste with
  | some t => if t = [] then infer dish.name else t
  | none => infer dish.name

/-- The `filtered_names` of `dish_recommendations_for_restaurant`: the dish
names surviving the diet filter and, when allergies are given, the LLM
allergy filter. -/
def survivingNames (aiAllergy : List String → List String → List String)
    (menu_items : List DishEntry) (diet_type : Option String)
    (allergies : List String) : List String :=
  if allergies ≠ [] then
    aiAllergy (filter_dishes_by_diet (menu_items.map (fun d => d.name)) diet_type) allergies
  else filter_dishes_by_diet (menu_items.map (fun d => d.name)) diet_type

/-- `dish_recommendations_for_restaurant(menu_items, user_taste_vec,
diet_type, allergies=None, top_n=5)`.  `cos` is the sklearn cosine oracle,
`infer` the taste-inference oracle, `aiAllergy` the LLM allergy filter
oracle (`filter_dishes_by_allergy`); `allergies = []` models both `None` and
an empty list (the source's `if allergies:` is falsy for both). -/
def dish_recommendations_for_restaurant
    (cos : List ℚ → List ℚ → ℚ) (infer : String → List ℚ)
    (aiAllergy : List String → List String → List String)
    (menu_items : List DishEntry) (user_taste_vec : List ℚ)
    (diet_type : Option String) (allergies : List String) (top_n : ℕ) : List DishScore :=
  if menu_items = [] then []
  else
    let filtered_names := survivingNames aiAllergy menu_items diet_type allergies
    if filtered_names = [] then []
    else
      let dish_scores := menu_items.filterMap (fun dish =>
        if dish.name ∈ filtered_names then
          let dish_taste_vec := dishTasteOf infer dish
          let similarity := taste_similarity cos user_taste_vec dish_taste_vec
          let user_sum := (user_taste_vec.map (fun x => |x|)).sum
          let dish_sum := (dish_taste_vec.map (fun x => |x|)).sum
          some ⟨dish.name,
            pyRound1 ((if user_sum = 0 ∨ dish_sum = 0 then (1 : ℚ)/2 else similarity) * 100)⟩
        else none)
      (sortDescBy (fun s => s.similarity) dish_scores).take top_n

/-! ## `backend/services/recommendation_service.py`: filter and rank -/

/-- One Pinecone hit as `filter_and_rank_recommendations` reads it, with the
metadata fields already typed (the source's JSON-string fallbacks
`location_json` / `coordinates_json` / string `cuisine_types` collapse into
the typed fields; presentation-only pass-through fields — url, rating, price
range, coordinates, photos, menu url — are omitted as they influence
nothing).  `taste = some v` models six numeric `taste_0..taste_5` metadata
entries; `none` models their absence. -/
structure RMatch where
  id : String
  name : String
  score : ℚ
  menu_items : List String
  location : Option String
  cuisine_types : List String
  popular_dishes : List String
  taste : Option (List ℚ)
  dishes_json : Option (List DishEntry)
deriving DecidableEq

/-- The ranked restaurant object built per surviving match (same field
omissions as `RMatch`). -/
structure RankedRestaurant where
  id : String
  name : String
  location : Option String
  menu_items : List String
  taste_vector : List ℚ
  recommended_dishes : List DishScore
  score : ℚ
deriving DecidableEq

/-- `re.sub(r"[^\w\s]", "", text)`: drop every character that is neither a
word character nor whitespace. -/
def stripPunct (s : String) : String :=
  ⟨s.data.filter (fun c => isWordChar c || c.isWhitespace)⟩

/-- Python `str.split()` with no argument: maximal runs of non-whitespace. -/
def splitWSAux : List Char → List Char → List (List Char)
  | [], cur => if cur = [] then [] else [cur.reverse]
  | c :: rest, cur =>
    if c.isWhitespace then
      if cur = [] then splitWSAux rest [] else cur.reverse :: splitWSAux rest []
    else splitWSAux rest (c :: cur)

def pySplitWS (s : String) : List String :=
  (splitWSAux s.data []).map (fun l => ⟨l⟩)

/-- The stop-word set removed from the query tokens. -/
def STOP_WORDS : List String :=
  ["i", "want", "to", "eat", "some", "a", "the", "in", "at", "near", "me", "place",
   "restaurant", "find", "show", "give", "food", "good", "best", "delicious",
   "yummy", "looking", "for"]

/-- The query-token set of `filter_and_rank_recommendations`: tokens of the
lower-cased, punctuation-stripped query, minus the stop words; empty when no
(or an empty) query text is given. -/
def query_tokens (query_text : Option String) : Finset String :=
  match query_text with
  | none => ∅
  | some qt =>
    if qt = "" then ∅
    else (pySplitWS (stripPunct (pyLower qt))).toFinset \ STOP_WORDS.toFinset

/-- The location filter step: pass unless both a location filter and a
restaurant location are present and truthy, in which case pass exactly when
`check_location_match` returns `True` (both `False` and the `None` produced
by a raising LLM call are falsy and fail the gate). -/
def locationGate (llm : String → String → Option Bool)
    (location_filter location : Option String) : Bool :=
  match location_filter, location with
  | some lf, some loc =>
    if lf ≠ "" ∧ loc ≠ "" then decide (check_location_match llm lf loc = some true)
    else true
  | _, _ => true

/-- The cuisine filter step: pass unless a truthy cuisine filter is present,
in which case some listed cuisine must contain it case-insensitively. -/
def cuisineGate (cuisine_filter : Option String) (cuisine_types : List String) : Bool :=
  match cuisine_filter with
  | some cf =>
    if cf ≠ "" then cuisine_types.any (fun cuisine => pyContains (pyLower cuisine) (pyLower cf))
    else true
  | none => true

/-- The loop body of `filter_and_rank_recommendations` for one match
(`continue` ↦ `none`). -/
def processMatch (llm : String → String → Option Bool)
    (cos : List ℚ → List ℚ → ℚ) (infer : String → List ℚ)
    (aiAllergy : List String → List String → List String)
    (user_taste_vec : List ℚ) (favorite_dishes : List FavoriteDish)
    (diet_type : Option String) (allergies : List String)
    (qtokens : Finset String)
    (location_filter cuisine_filter : Option String)
    (query_ingredients : List String) (m : RMatch) : Option RankedRestaurant :=
  let menu_items1 := filter_dishes_by_diet m.menu_items diet_type
  if menu_items1 = [] then none
  else
    let menu_items := if allergies ≠ [] then aiAllergy menu_items1 allergies else menu_items1
    if menu_items = [] then none
    else if locationGate llm location_filter m.location = false then none
    else if cuisineGate cuisine_filter m.cuisine_types = false then none
    else
      let taste_vec := match m.taste with | some v => v | none => List.replicate 6 0
      let tscore := taste_similarity cos user_taste_vec taste_vec
      let boost := favorites_boost menu_items favorite_dishes
      let full_text := pyLower (joinSpace menu_items) ++ " "
        ++ pyLower (joinSpace m.popular_dishes) ++ " " ++ pyLower m.name ++ " "
        ++ pyLower (joinSpace m.cuisine_types)
      let overlap := (qtokens ∩ (pySplitWS (stripPunct full_text)).toFinset).card
      let query_boost : ℚ := if qtokens ≠ ∅ ∧ 0 < overlap then 1/2 + (2/10) * overlap else 0
      let matched_ingredients := (query_ingredients.filter
        (fun ing => pyContains (pyLower (joinSpace menu_items)) ing)).length
      let ingredient_boost : ℚ :=
        if query_ingredients ≠ [] ∧ 0 < matched_ingredients
        then (3/10) * matched_ingredients else 0
      let combined := m.score + (35/100) * tscore + boost + query_boost + ingredient_boost
      let recommended_dishes :=
        match m.dishes_json with
        | some dishes =>
          if dishes ≠ [] then
            dish_recommendations_for_restaurant cos infer aiAllergy dishes
              user_taste_vec diet_type [] 5
          else
            dish_recommendations_for_restaurant cos infer aiAllergy
              (menu_items.map (fun n => ⟨n, none⟩)) user_taste_vec diet_type [] 5
        | none =>
          dish_recommendations_for_restaurant cos infer aiAllergy
            (menu_items.map (fun n => ⟨n, none⟩)) user_taste_vec diet_type [] 5
      some ⟨m.id, m.name, m.location, menu_items, taste_vec, recommended_dishes, combined⟩

/-- `filter_and_rank_recommendations(matches, user_taste_vec,
favorite_dishes, diet_type, allergies, max_results=10, query_text,
location_filter, cuisine_filter, query_ingredients)`. -/
def filter_and_rank_recommendations (llm : String → String → Option Bool)
    (cos : List ℚ → List ℚ → ℚ) (infer : String → List ℚ)
    (aiAllergy : List String → List String → List String)
    (matchList : List RMatch) (user_taste_vec : List ℚ)
    (favorite_dishes : List FavoriteDish) (diet_type : Option String)
    (allergies : List String) (max_results : ℕ)
    (query_text location_filter cuisine_filter : Option String)
    (query_ingredients : List String) : List RankedRestaurant :=
  let qtokens := query_tokens query_text
  let ranked := matchList.filterMap (processMatch llm cos infer aiAllergy user_taste_vec
    favorite_dishes diet_type allergies qtokens location_filter cuisine_filter query_ingredients)
  (sortDescBy (fun r => r.score) ranked).take max_results

/-- A restaurant "reaches the LLM stage" of the location check: a truthy
location filter and restaurant location are present and every fast path of
`check_location_match` is inconclusive on them. -/
def reachesLLMStage (location_filter : Option String) (m : RMatch) : Bool :=
  match location_filter, m.location with
  | some lf, some loc =>
    decide (lf ≠ "" ∧ loc ≠ "" ∧ check_location_match_fast lf loc = none)
  | _, _ => false

/-- The corpus row of the spec's own example. -/
def biryaniRecipe : Recipe :=
  ⟨"1", "chicken biryani", "Chicken Biryani", ["chicken", "rice"], ⟨0, 0, 0, 0, 0, 0⟩⟩

/-- A corpus row whose similarity to the query "abcx" is exactly `3/5`. -/
def abcdefRecipe : Recipe :=
  ⟨"0", "abcdef", "abcdef", [], ⟨0, 0, 0, 0, 0, 0⟩⟩

/-- The concrete LLM outcome used to witness the hybrid allergy filter:
the spec's own example shape, keyword-safe {A,B,C} and LLM-safe {B,C,D}. -/
def aiFilterWitness : List String → List String → List String :=
  fun _ _ => ["B", "C", "Donut"]

/-- Concrete oracles and inputs used by witness theorems: a constant cosine
value, a taste-inference oracle with no signal, an allergy filter that keeps
everything, a two-dish menu with pre-computed taste vectors (one of them the
zero sentinel), and a user vector with one non-zero component. -/
def cosW : List ℚ → List ℚ → ℚ := fun _ _ => 7/10

def inferW : String → List ℚ := fun _ => []

def aiAllergyW : List String → List String → List String := fun dishes _ => dishes

def menuW : List DishEntry :=
  [⟨"Chicken Curry", some [1, 0, 0, 0, 0, 0]⟩, ⟨"Paneer Tikka", some [0, 0, 0, 0, 0, 0]⟩]

def userW : List ℚ := [1, 0, 0, 0, 0, 0]

/-! ## `backend/routes/friends.py` and `backend/routes/groups.py` -/

/-- A row of the `users` table (fields used by these routes). -/
structure DBUser where
  id : String
  cognito_user_id : String
  email : String
  name : String
  taste_vector : Option (List ℚ)
  allergies : List String
  diet_type : Option String
deriving DecidableEq

structure DBFriendRequest where
  id : String
  from_user_id : String
  to_user_id : String
  status : String
deriving DecidableEq

structure DBFriendship where
  id : String
  user1_id : String
  user2_id : String
deriving DecidableEq

structure DBGroup where
  id : String
  name : String
  created_by : String
  budget : Option ℚ
  location : Option String
  created_at : String
deriving DecidableEq

structure DBGroupMember where
  id : String
  group_id : String
  user_id : String
deriving DecidableEq

/-- The relational state these routes touch.  A route handler is a function
of this state; raising `HTTPException(s, msg)` is `.error (s, msg)` (the
per-request session rolls back, so an error leaves the state unchanged), and
a successful commit returns the new state. -/
structure AppDB where
  users : List DBUser
  friend_requests : List DBFriendRequest
  friendships : List DBFriendship
  groups : List DBGroup
  group_members : List DBGroupMember
deriving DecidableEq

/-- `POST /api/friends/request` (`send_friend_request`).  `scalar_one_or_none`
on a unique-keyed column is modelled as `find?`; `new_request_id` stands for
the generated `uuid4`. -/
def send_friend_request (db : AppDB) (cognito_user_id to_user_id new_request_id : String) :
    Except (ℕ × String) (AppDB × String) :=
  match db.users.find? (fun u => u.cognito_user_id = cognito_user_id) with
  | none => .error (404, "User not found")
  | some current_user =>
    match db.users.find? (fun u => u.id = to_user_id) with
    | none => .error (404, "Target user not found")
    | some target_user =>
      if current_user.id = target_user.id then
        .error (400, "Cannot send friend request to yourself")
      else if db.friendships.any (fun f =>
          (f.user1_id = current_user.id ∧ f.user2_id = target_user.id)
          ∨ (f.user1_id = target_user.id ∧ f.user2_id = current_user.id)) then
        .error (400, "Already friends")
      else if db.friend_requests.any (fun fr =>
          fr.from_user_id = current_user.id ∧ fr.to_user_id = target_user.id
          ∧ fr.status = "pending") then
        .error (400, "Friend request already sent")
      else
        .ok ({ db with friend_requests := db.friend_requests
            ++ [⟨new_request_id, current_user.id, target_user.id, "pending"⟩] },
          "Friend request sent")

/-- The `select(GroupMember, User).join(User, ...)` rows for one group, in
member-table order; members whose user row is missing drop out of the join. -/
def groupMembersJoined (db : AppDB) (group_id : String) : List (DBGroupMember × DBUser) :=
  (db.group_members.filter (fun m => m.group_id = group_id)).filterMap
    (fun m => (db.users.find? (fun u => u.id = m.user_id)).map (fun u => (m, u)))

/-- One member entry of the group-detail response. -/
structure GroupMemberView where
  id : String
  name : String
  email : String
  taste_vector : Option (List ℚ)
  allergies : List String
  diet_type : Option String
deriving DecidableEq

/-- The group-detail response body. -/
structure GroupDetail where
  id : String
  name : String
  created_by : String
  budget : Option ℚ
  location : Option String
  members : List GroupMemberView
  created_at : String
deriving DecidableEq

/-- `GET /api/groups/{group_id}` (`get_group`): membership is required. -/
def get_group (db : AppDB) (cognito_user_id group_id : String) :
    Except (ℕ × String) GroupDetail :=
  match db.users.find? (fun u => u.cognito_user_id = cognito_user_id) with
  | none => .error (404, "User not found")
  | some current_user =>
    match db.groups.find? (fun g => g.id = group_id) with
    | none => .error (404, "Group not found")
    | some group =>
      if db.group_members.any (fun m =>
          m.group_id = group_id ∧ m.user_id = current_user.id) then
        .ok ⟨group.id, group.name, group.created_by, group.budget, group.location,
          (groupMembersJoined db group_id).map (fun mu =>
            ⟨mu.2.id, mu.2.name, mu.2.email, mu.2.taste_vector, mu.2.allergies,
             mu.2.diet_type⟩),
          group.created_at⟩
      else .error (403, "Not a member of this group")

/-- `POST /api/groups/{group_id}/members` (`add_member`): the acting user
must be a member before the target is even looked up. -/
def add_member (db : AppDB) (cognito_user_id group_id target_user_id new_member_id : String) :
    Except (ℕ × String) (AppDB × String) :=
  match db.users.find? (fun u => u.cognito_user_id = cognito_user_id) with
  | none => .error (404, "User not found")
  | some current_user =>
    match db.groups.find? (fun g => g.id = group_id) with
    | none => .error (404, "Group not found")
    | some _group =>
      if db.group_members.any (fun m =>
          m.group_id = group_id ∧ m.user_id = current_user.id) then
        match db.users.find? (fun u => u.id = target_user_id) with
        | none => .error (404, "Target user not found")
        | some _target =>
          if db.group_members.any (fun m =>
              m.group_id = group_id ∧ m.user_id = target_user_id) then
            .error (400, "User already in group")
          else
            .ok ({ db with group_members := db.group_members
                ++ [⟨new_member_id, group_id, target_user_id⟩] }, "Member added")
      else .error (403, "Not a member of this group")

/-- One member entry of the group-recommendations response. -/
structure GroupRecMember where
  id : String
  name : String
  taste_vector : Option (List ℚ)
  allergies : List String
deriving DecidableEq

/-- The group-recommendations response body.  `combined_allergies` is a
Python `set`, modelled as a `Finset`. -/
structure GroupRecommendations where
  group_id : String
  group_name : String
  combined_taste : List ℚ
  combined_allergies : Finset String
  budget : Option ℚ
  location : Option String
  members : List GroupRecMember
  message : String
deriving DecidableEq

/-- The members whose stored taste vector is truthy (present and non-empty),
in join order. -/
def memberTasteVectors (db : AppDB) (group_id : String) : List (List ℚ) :=
  (groupMembersJoined db group_id).filterMap (fun mu =>
    match mu.2.taste_vector with
    | some v => if v ≠ [] then some v else none
    | none => none)

/-- `GET /api/groups/{group_id}/recommendations`
(`get_group_recommendations`): resolves the caller and the group, then
answers — with **no** membership check. -/
def get_group_recommendations (db : AppDB) (cognito_user_id group_id : String) :
    Except (ℕ × String) GroupRecommendations :=
  match db.users.find? (fun u => u.cognito_user_id = cognito_user_id) with
  | none => .error (404, "User not found")
  | some _current_user =>
    match db.groups.find? (fun g => g.id = group_id) with
    | none => .error (404, "Group not found")
    | some group =>
      let members_data := groupMembersJoined db group_id
      let members := members_data.map (fun mu =>
        (⟨mu.2.id, mu.2.name, mu.2.taste_vector, mu.2.allergies⟩ : GroupRecMember))
      let combined_allergies := members_data.foldl
        (fun s mu => if mu.2.allergies ≠ [] then s ∪ mu.2.allergies.toFinset else s) ∅
      let taste_vectors := memberTasteVectors db group_id
      let combined_taste :=
        if taste_vectors = [] then List.replicate 6 0
        else (List.range 6).map (fun i =>
          (taste_vectors.map (fun vec => vec.getD i 0)).sum / (taste_vectors.length : ℚ))
      .ok ⟨group_id, group.name, combined_taste, combined_allergies, group.budget,
        group.location, members,
        "Use /api/chat endpoint with group context for recommendations"⟩

/-- Concrete database used by the C8 and C9 witnesses: Alice and Bob exist,
only Bob is a member of the one group, and no requests or friendships exist. -/
def aliceW : DBUser := ⟨"u1", "c1", "alice@x", "Alice", some [1, 0, 0, 0, 0, 0], ["nuts"], none⟩

def bobW : DBUser := ⟨"u2", "c2", "bob@x", "Bob", none, [], none⟩

def groupW : DBGroup := ⟨"g1", "Dinner", "u2", none, none, "2024-01-01"⟩

def dbW : AppDB := ⟨[aliceW, bobW], [], [], [groupW], [⟨"m1", "g1", "u2"⟩]⟩


/-! ## Theorems -/

theorem filter_dishes_by_diet_nil (dt : Option String) :
    filter_dishes_by_diet [] dt = [] := by
  simp [filter_dishes_by_diet]

/-- C6: `combine_vectors` computes `primary*(1-w) + secondary*w` element-wise
when both sides are non-empty, and in the degenerate cases returns whichever
side is non-empty unchanged, with a 6-element zero vector when both are empty.
The sole default for the secondary weight in the source is `0.35`. -/
theorem combine_vectors_spec (p s : List ℚ) (w : ℚ) :
    (p ≠ [] → s ≠ [] →
      combine_vectors p s w = List.zipWith (fun a b => a * (1 - w) + b * w) p s)
    ∧ combine_vectors [] [1, 2, 3] (35/100) = [1, 2, 3]
    ∧ combine_vectors [1, 2, 3] [] (35/100) = [1, 2, 3]
    ∧ combine_vectors [] [] (35/100) = [0, 0, 0, 0, 0, 0] := by
  refine ⟨fun hp hs => ?_, by decide, by decide, by decide⟩
  simp [combine_vectors, hp, hs]

/-- C2: diet filtering keeps exactly the dishes without a non-veg keyword hit
for veg diets, exactly those with a hit for non-veg diets, and passes the
list through unchanged for mix/any/all or an unset diet, preserving order;
on the three-dish example it returns the stated sublists. -/
theorem filter_dishes_by_diet_spec (dishes : List String) :
    (filter_dishes_by_diet dishes (some "veg")
        = dishes.filter (fun d => !is_nonveg_text d)
      ∧ filter_dishes_by_diet dishes (some "vegetarian")
        = dishes.filter (fun d => !is_nonveg_text d))
    ∧ (filter_dishes_by_diet dishes (some "non-veg")
        = dishes.filter (fun d => is_nonveg_text d)
      ∧ filter_dishes_by_diet dishes (some "nonveg")
        = dishes.filter (fun d => is_nonveg_text d)
      ∧ filter_dishes_by_diet dishes (some "non_veg")
        = dishes.filter (fun d => is_nonveg_text d))
    ∧ (filter_dishes_by_diet dishes (some "mix") = dishes
      ∧ filter_dishes_by_diet dishes (some "any") = dishes
      ∧ filter_dishes_by_diet dishes (some "all") = dishes
      ∧ filter_dishes_by_diet dishes none = dishes)
    ∧ (filter_dishes_by_diet
          ["Chicken Curry", "Paneer Tikka", "Caesar Salad with Bacon"] (some "veg")
        = ["Paneer Tikka"]
      ∧ filter_dishes_by_diet
          ["Chicken Curry", "Paneer Tikka", "Caesar Salad with Bacon"] (some "non-veg")
        = ["Chicken Curry", "Caesar Salad with Bacon"]
      ∧ filter_dishes_by_diet
          ["Chicken Curry", "Paneer Tikka", "Caesar Salad with Bacon"] (some "mix")
        = ["Chicken Curry", "Paneer Tikka", "Caesar Salad with Bacon"]) := by
  by_cases h : dishes = []
  · subst h
    refine ⟨⟨rfl, rfl⟩, ⟨rfl, rfl, rfl⟩, ⟨rfl, rfl, rfl, rfl⟩, by decide, by decide, by decide⟩
  · refine ⟨⟨?_, ?_⟩, ⟨?_, ?_, ?_⟩, ⟨?_, ?_, ?_, ?_⟩, by decide, by decide, by decide⟩ <;>
      simp [filter_dishes_by_diet, h]

/-- The duplicate-free intersection list of the hybrid filter carries exactly
the `Finset` intersection of the two safe lists. -/
theorem interList_toFinset (kw ai : List String) :
    ((kw.filter (fun d => d ∈ ai)).dedup).toFinset = kw.toFinset ∩ ai.toFinset := by
  ext x
  simp [List.mem_filter]

/-- The duplicate-free intersection list's length is the Python
`len(set(keyword_safe) & set(ai_safe))`. -/
theorem interList_length (kw ai : List String) :
    ((kw.filter (fun d => d ∈ ai)).dedup).length = (kw.toFinset ∩ ai.toFinset).card := by
  rw [← interList_toFinset kw ai, List.card_toFinset, List.dedup_idem]

/-- C1: for non-empty dishes and allergies the hybrid filter reports the
intersection of the keyword-safe set and the LLM-safe set as the safe set
with method "intersection"; when that intersection is empty and the LLM-safe
list is non-empty it returns the LLM-safe list alone with method
"ai_fallback"; and its stats payload carries the keyword, AI and
intersection counts (plus the total and final counts). -/
theorem filter_dishes_by_allergy_hybrid_spec
    (aiFilter : List String → List String → List String)
    (dishes allergies : List String) (hd : dishes ≠ []) (ha : allergies ≠ []) :
    (¬((hybridKeywordSafe dishes allergies).toFinset
          ∩ (aiFilter dishes allergies).toFinset = ∅
        ∧ aiFilter dishes allergies ≠ []) →
      (filter_dishes_by_allergy_hybrid aiFilter dishes allergies).safe_dishes.toFinset
          = (hybridKeywordSafe dishes allergies).toFinset
              ∩ (aiFilter dishes allergies).toFinset
        ∧ (filter_dishes_by_allergy_hybrid aiFilter dishes allergies).method
          = "intersection")
    ∧ ((hybridKeywordSafe dishes allergies).toFinset
          ∩ (aiFilter dishes allergies).toFinset = ∅ →
        aiFilter dishes allergies ≠ [] →
      (filter_dishes_by_allergy_hybrid aiFilter dishes allergies).safe_dishes
          = aiFilter dishes allergies
        ∧ (filter_dishes_by_allergy_hybrid aiFilter dishes allergies).method
          = "ai_fallback")
    ∧ (filter_dishes_by_allergy_hybrid aiFilter dishes allergies).stats
      = some ⟨dishes.length,
              (hybridKeywordSafe dishes allergies).length,
              (aiFilter dishes allergies).length,
              ((hybridKeywordSafe dishes allergies).toFinset
                ∩ (aiFilter dishes allergies).toFinset).card,
              (filter_dishes_by_allergy_hybrid aiFilter dishes allergies).safe_dishes.length⟩ := by
  have hcond : ¬(dishes = [] ∨ allergies = []) := by simp [hd, ha]
  by_cases hc : ((hybridKeywordSafe dishes allergies).filter
        (fun d => d ∈ aiFilter dishes allergies)).dedup.length = 0
      ∧ 0 < (aiFilter dishes allergies).length
  · have hres : filter_dishes_by_allergy_hybrid aiFilter dishes allergies
        = ⟨aiFilter dishes allergies, "ai_fallback",
            some ⟨dishes.length, (hybridKeywordSafe dishes allergies).length,
                  (aiFilter dishes allergies).length,
                  ((hybridKeywordSafe dishes allergies).filter
                    (fun d => d ∈ aiFilter dishes allergies)).dedup.length,
                  (aiFilter dishes allergies).length⟩⟩ := by
      simp only [filter_dishes_by_allergy_hybrid]
      rw [if_neg hcond, if_pos hc]
    have hemp : (hybridKeywordSafe dishes allergies).toFinset
        ∩ (aiFilter dishes allergies).toFinset = ∅ := by
      have h1 := hc.1
      rw [interList_length] at h1
      exact Finset.card_eq_zero.mp h1
    have hne : aiFilter dishes allergies ≠ [] := List.length_pos.mp hc.2
    refine ⟨fun hn => absurd ⟨hemp, hne⟩ hn, fun _ _ => ?_, ?_⟩
    · rw [hres]; exact ⟨rfl, rfl⟩
    · rw [hres]; simp [interList_length]
  · have hres : filter_dishes_by_allergy_hybrid aiFilter dishes allergies
        = ⟨((hybridKeywordSafe dishes allergies).filter
              (fun d => d ∈ aiFilter dishes allergies)).dedup, "intersection",
            some ⟨dishes.length, (hybridKeywordSafe dishes allergies).length,
                  (aiFilter dishes allergies).length,
                  ((hybridKeywordSafe dishes allergies).filter
                    (fun d => d ∈ aiFilter dishes allergies)).dedup.length,
                  ((hybridKeywordSafe dishes allergies).filter
                    (fun d => d ∈ aiFilter dishes allergies)).dedup.length⟩⟩ := by
      simp only [filter_dishes_by_allergy_hybrid]
      rw [if_neg hcond, if_neg hc]
    have hnotboth : ¬((hybridKeywordSafe dishes allergies).toFinset
        ∩ (aiFilter dishes allergies).toFinset = ∅
        ∧ aiFilter dishes allergies ≠ []) := by
      rintro ⟨he, hne⟩
      refine hc ⟨?_, List.length_pos.mpr hne⟩
      rw [interList_length]
      exact Finset.card_eq_zero.mpr he
    refine ⟨fun _ => ?_, fun he hne => absurd ⟨he, hne⟩ hnotboth, ?_⟩
    · rw [hres]; exact ⟨interList_toFinset _ _, rfl⟩
    · rw [hres]; simp [interList_length]

/-- Witness for C1 at the spec's example shape: dishes A,B,C,Donut with a
"nut" allergy give keyword-safe {A,B,C}; the LLM oracle answers {B,C,Donut};
the hybrid result is the intersection {B,C} with method "intersection". -/
theorem filter_dishes_by_allergy_hybrid_spec_witness :
    (¬((hybridKeywordSafe ["A", "B", "C", "Donut"] ["nut"]).toFinset
          ∩ (aiFilterWitness ["A", "B", "C", "Donut"] ["nut"]).toFinset = ∅
        ∧ aiFilterWitness ["A", "B", "C", "Donut"] ["nut"] ≠ []) →
      (filter_dishes_by_allergy_hybrid aiFilterWitness
          ["A", "B", "C", "Donut"] ["nut"]).safe_dishes.toFinset
          = (hybridKeywordSafe ["A", "B", "C", "Donut"] ["nut"]).toFinset
              ∩ (aiFilterWitness ["A", "B", "C", "Donut"] ["nut"]).toFinset
        ∧ (filter_dishes_by_allergy_hybrid aiFilterWitness
            ["A", "B", "C", "Donut"] ["nut"]).method = "intersection")
    ∧ ((hybridKeywordSafe ["A", "B", "C", "Donut"] ["nut"]).toFinset
          ∩ (aiFilterWitness ["A", "B", "C", "Donut"] ["nut"]).toFinset = ∅ →
        aiFilterWitness ["A", "B", "C", "Donut"] ["nut"] ≠ [] →
      (filter_dishes_by_allergy_hybrid aiFilterWitness
          ["A", "B", "C", "Donut"] ["nut"]).safe_dishes
          = aiFilterWitness ["A", "B", "C", "Donut"] ["nut"]
        ∧ (filter_dishes_by_allergy_hybrid aiFilterWitness
            ["A", "B", "C", "Donut"] ["nut"]).method = "ai_fallback")
    ∧ (filter_dishes_by_allergy_hybrid aiFilterWitness
        ["A", "B", "C", "Donut"] ["nut"]).stats
      = some ⟨(["A", "B", "C", "Donut"] : List String).length,
              (hybridKeywordSafe ["A", "B", "C", "Donut"] ["nut"]).length,
              (aiFilterWitness ["A", "B", "C", "Donut"] ["nut"]).length,
              ((hybridKeywordSafe ["A", "B", "C", "Donut"] ["nut"]).toFinset
                ∩ (aiFilterWitness ["A", "B", "C", "Donut"] ["nut"]).toFinset).card,
              (filter_dishes_by_allergy_hybrid aiFilterWitness
                ["A", "B", "C", "Donut"] ["nut"]).safe_dishes.length⟩ :=
  filter_dishes_by_allergy_hybrid_spec aiFilterWitness
    ["A", "B", "C", "Donut"] ["nut"] (by decide) (by decide)

/-- C7 counterexample: with menu `["Tikka"]` and the single favorite
`"Paneer Tikka"` (a case-insensitive superset of the menu item), the source
computes boost `0`, while the claimed "substring or superset" formula gives
`0.1`: the superset direction is not in the code. -/
theorem favorites_boost_superset_counterexample :
    favorites_boost ["Tikka"] [⟨some "Paneer Tikka", none⟩] = 0
    ∧ favorites_boost_specWorded ["Tikka"] [⟨some "Paneer Tikka", none⟩] = 1/10 := by
  constructor
  · unfold favorites_boost
    rw [if_neg (by decide)]
    show (((favNamesLower [⟨some "Paneer Tikka", none⟩]).filter
        (fun fav => ((["Tikka"] : List String).map pyLower).any
          (fun menu => pyContains menu fav))).length : ℚ) * (1/10) = 0
    rw [show ((favNamesLower [⟨some "Paneer Tikka", none⟩]).filter
        (fun fav => ((["Tikka"] : List String).map pyLower).any
          (fun menu => pyContains menu fav))) = [] from by decide]
    simp
  · unfold favorites_boost_specWorded
    rw [if_neg (by decide)]
    rw [show ((favNamesLower [⟨some "Paneer Tikka", none⟩]).filter
        (fun fav => (["Tikka"] : List String).any (fun menu =>
          pyContains (pyLower menu) fav || pyContains fav (pyLower menu))))
        = ["paneer tikka"] from by decide]
    simp

/-- C7 amended: the favorites boost is `0.1` times the count of (non-empty)
favorite-dish names that are case-insensitive substrings of some menu item —
substrings only, not supersets — and `0` when either list is empty. -/
theorem favorites_boost_amended (menu_items : List String)
    (favorite_dishes : List FavoriteDish) :
    favorites_boost menu_items favorite_dishes =
      if menu_items = [] ∨ favorite_dishes = [] then 0
      else (((favNamesLower favorite_dishes).countP
        (fun fav => menu_items.any (fun menu => pyContains (pyLower menu) fav)) : ℕ) : ℚ)
        * (1/10) := by
  have hpred : (fun fav => (menu_items.map pyLower).any (fun menu => pyContains menu fav))
      = (fun fav => menu_items.any (fun menu => pyContains (pyLower menu) fav)) := by
    funext fav
    rw [List.any_map]
    rfl
  unfold favorites_boost
  split
  · rfl
  · show (((favNamesLower favorite_dishes).filter
        (fun fav => (menu_items.map pyLower).any (fun menu => pyContains menu fav))).length : ℚ)
        * (1/10) = _
    rw [List.countP_eq_length_filter, hpred]

set_option maxRecDepth 40000

/-- Characterization of the fuzzy-match fold: either no row beats the running
score and the accumulator survives, or the fold returns the first row
attaining the maximum score, which strictly beats the accumulator. -/
theorem fuzzyFold_char (key : String) (l : List Recipe) (acc : Option Recipe × ℚ) :
    (l.foldl (fuzzyStep key) acc = acc
      ∧ ∀ r ∈ l, similarity_score key r.name ≤ acc.2)
    ∨ (∃ r ∈ l, l.foldl (fuzzyStep key) acc = (some r, similarity_score key r.name)
        ∧ acc.2 < similarity_score key r.name
        ∧ ∀ r' ∈ l, similarity_score key r'.name ≤ similarity_score key r.name) := by
  induction l generalizing acc with
  | nil => exact Or.inl ⟨rfl, by simp⟩
  | cons a t ih =>
    by_cases h : similarity_score key a.name > acc.2
    · have hstep : fuzzyStep key acc a = (some a, similarity_score key a.name) := by
        unfold fuzzyStep; rw [if_pos h]
      rcases ih (some a, similarity_score key a.name) with ⟨heq, hle⟩ | ⟨r, hr, heq, hlt, hmax⟩
      · refine Or.inr ⟨a, List.mem_cons_self a t, ?_, h, ?_⟩
        · rw [List.foldl_cons, hstep, heq]
        · intro r' hr'
          rcases List.mem_cons.mp hr' with rfl | hr'
          · exact le_refl _
          · exact hle r' hr'
      · refine Or.inr ⟨r, List.mem_cons_of_mem a hr, ?_, lt_trans h hlt, ?_⟩
        · rw [List.foldl_cons, hstep, heq]
        · intro r' hr'
          rcases List.mem_cons.mp hr' with rfl | hr'
          · exact le_of_lt hlt
          · exact hmax r' hr'
    · have hstep : fuzzyStep key acc a = acc := by
        unfold fuzzyStep; rw [if_neg h]
      rcases ih acc with ⟨heq, hle⟩ | ⟨r, hr, heq, hlt, hmax⟩
      · refine Or.inl ⟨?_, ?_⟩
        · rw [List.foldl_cons, hstep, heq]
        · intro r' hr'
          rcases List.mem_cons.mp hr' with rfl | hr'
          · exact le_of_not_lt h
          · exact hle r' hr'
      · refine Or.inr ⟨r, List.mem_cons_of_mem a hr, ?_, hlt, ?_⟩
        · rw [List.foldl_cons, hstep, heq]
        · intro r' hr'
          rcases List.mem_cons.mp hr' with rfl | hr'
          · exact le_trans (le_of_not_lt h) (le_of_lt hlt)
          · exact hmax r' hr'

theorem similarity_chiken : similarity_score "chiken biryani" "chicken biryani" = 28/29 := by
  unfold similarity_score
  rw [show matchTotal (pyLower "chiken biryani").data (pyLower "chicken biryani").data = 14
        from by decide,
      show (pyLower "chiken biryani").data.length = 14 from by decide,
      show (pyLower "chicken biryani").data.length = 15 from by decide]
  norm_num

theorem similarity_xyz : similarity_score "xyz123" "chicken biryani" = 2/21 := by
  unfold similarity_score
  rw [show matchTotal (pyLower "xyz123").data (pyLower "chicken biryani").data = 1
        from by decide,
      show (pyLower "xyz123").data.length = 6 from by decide,
      show (pyLower "chicken biryani").data.length = 15 from by decide]
  norm_num

theorem similarity_abcx : similarity_score "abcx" "abcdef" = 3/5 := by
  unfold similarity_score
  rw [show matchTotal (pyLower "abcx").data (pyLower "abcdef").data = 3 from by decide,
      show (pyLower "abcx").data.length = 4 from by decide,
      show (pyLower "abcdef").data.length = 6 from by decide]
  norm_num

/-- C5 (amended): recipe lookup returns the exact match on the lower-cased
(stripped) dish name when one exists; otherwise it scans at most the first
10,000 loaded recipes and returns a candidate with the highest
sequence-similarity ratio, provided that ratio is **strictly above** the
caller-supplied threshold (default 0.6 at the sole call site), and no result
when no candidate exceeds the threshold; with a corpus containing
"chicken biryani", the query "chiken biryani" matches at threshold 0.6 and
the query "xyz123" returns no match. -/
theorem search_recipe_by_name_spec (recipes : List Recipe) (dish_name : String) (θ : ℚ) :
    (∀ r, recipes ≠ [] →
      lookupDict recipes (pyStrip (pyLower dish_name)) = some r →
      search_recipe_by_name recipes dish_name θ = some r)
    ∧ (lookupDict recipes (pyStrip (pyLower dish_name)) = none →
        ((∀ r ∈ recipes.take 10000,
            similarity_score (pyStrip (pyLower dish_name)) r.name ≤ θ) →
          search_recipe_by_name recipes dish_name θ = none)
        ∧ (∀ r, search_recipe_by_name recipes dish_name θ = some r →
            r ∈ recipes.take 10000
            ∧ θ < similarity_score (pyStrip (pyLower dish_name)) r.name
            ∧ ∀ r' ∈ recipes.take 10000,
                similarity_score (pyStrip (pyLower dish_name)) r'.name
                  ≤ similarity_score (pyStrip (pyLower dish_name)) r.name))
    ∧ search_recipe_by_name [biryaniRecipe] "chiken biryani" (6/10) = some biryaniRecipe
    ∧ search_recipe_by_name [biryaniRecipe] "xyz123" (6/10) = none := by
  refine ⟨?_, ?_, ?_, ?_⟩
  · intro r hne hlook
    unfold search_recipe_by_name
    rw [if_neg hne, hlook]
  · intro hlook
    constructor
    · intro hall
      unfold search_recipe_by_name
      by_cases hne : recipes = []
      · rw [if_pos hne]
      · rw [if_neg hne, hlook]
        rcases fuzzyFold_char (pyStrip (pyLower dish_name)) (recipes.take 10000) (none, θ)
          with ⟨heq, _⟩ | ⟨r, hr, heq, hlt, _⟩
        · rw [heq]
        · exact absurd hlt (not_lt.mpr (hall r hr))
    · intro r hsome
      unfold search_recipe_by_name at hsome
      by_cases hne : recipes = []
      · rw [if_pos hne] at hsome
        exact absurd hsome (by simp)
      · rw [if_neg hne, hlook] at hsome
        rcases fuzzyFold_char (pyStrip (pyLower dish_name)) (recipes.take 10000) (none, θ)
          with ⟨heq, _⟩ | ⟨r', hr', heq, hlt, hmax⟩
        · rw [heq] at hsome
          exact absurd hsome (by simp)
        · rw [heq] at hsome
          simp only [Option.some.injEq] at hsome
          subst hsome
          exact ⟨hr', hlt, hmax⟩
  · unfold search_recipe_by_name
    rw [if_neg (by simp),
        show lookupDict [biryaniRecipe] (pyStrip (pyLower "chiken biryani")) = none
          from by decide,
        show pyStrip (pyLower "chiken biryani") = "chiken biryani" from by decide,
        show ([biryaniRecipe].take 10000) = [biryaniRecipe] from rfl,
        List.foldl_cons, List.foldl_nil]
    unfold fuzzyStep
    rw [show biryaniRecipe.name = "chicken biryani" from rfl, similarity_chiken,
        if_pos (by norm_num : (28/29 : ℚ) > ((none : Option Recipe), (6/10 : ℚ)).2)]
  · unfold search_recipe_by_name
    rw [if_neg (by simp),
        show lookupDict [biryaniRecipe] (pyStrip (pyLower "xyz123")) = none
          from by decide,
        show pyStrip (pyLower "xyz123") = "xyz123" from by decide,
        show ([biryaniRecipe].take 10000) = [biryaniRecipe] from rfl,
        List.foldl_cons, List.foldl_nil]
    unfold fuzzyStep
    rw [show biryaniRecipe.name = "chicken biryani" from rfl, similarity_xyz,
        if_neg (by norm_num : ¬((2/21 : ℚ) > ((none : Option Recipe), (6/10 : ℚ)).2))]

/-- C5 counterexample to "at or above the threshold": the similarity of
query "abcx" to the sole corpus row "abcdef" is exactly the threshold `3/5`,
yet the lookup returns no match — the source's
`if score > best_score` (initialised to the threshold) accepts only strictly
greater scores. -/
theorem search_recipe_threshold_counterexample :
    similarity_score "abcx" "abcdef" = 3/5
    ∧ search_recipe_by_name [abcdefRecipe] "abcx" (3/5) = none := by
  refine ⟨similarity_abcx, ?_⟩
  unfold search_recipe_by_name
  rw [if_neg (by simp),
      show lookupDict [abcdefRecipe] (pyStrip (pyLower "abcx")) = none from by decide,
      show pyStrip (pyLower "abcx") = "abcx" from by decide,
      show ([abcdefRecipe].take 10000) = [abcdefRecipe] from rfl,
      List.foldl_cons, List.foldl_nil]
  unfold fuzzyStep
  rw [show abcdefRecipe.name = "abcdef" from rfl, similarity_abcx,
      if_neg (by norm_num : ¬((3/5 : ℚ) > ((none : Option Recipe), (3/5 : ℚ)).2))]

/-- C4: three of the four claimed pairs are decided by the fast-path
heuristics alone (the result is the same for every LLM oracle), but
`("New York, NY", "Mumbai, India")` is **not**: the source computes
`u_has_us` from the restaurant string instead of the user string, so the
US-vs-non-US rejection never sees the user's `, NY` indicator, every fast
path is inconclusive, and the outcome tracks the LLM call. -/
theorem check_location_match_fast_paths :
    (∀ llm, check_location_match llm "San Francisco, CA" "123 Main St, San Francisco, CA"
      = some true)
    ∧ (∀ llm, check_location_match llm "Brooklyn, NY" "Manhattan, NY" = some true)
    ∧ (∀ llm, check_location_match llm "Austin, TX" "Chicago, IL" = some false)
    ∧ check_location_match_fast "New York, NY" "Mumbai, India" = none
    ∧ (∀ b, check_location_match (fun _ _ => b) "New York, NY" "Mumbai, India" = b) := by
  refine ⟨fun llm => ?_, fun llm => ?_, fun llm => ?_, by decide, fun b => ?_⟩
  · unfold check_location_match
    rw [show check_location_match_fast "San Francisco, CA" "123 Main St, San Francisco, CA"
          = some true from by decide]
  · unfold check_location_match
    rw [show check_location_match_fast "Brooklyn, NY" "Manhattan, NY" = some true
          from by decide]
  · unfold check_location_match
    rw [show check_location_match_fast "Austin, TX" "Chicago, IL" = some false
          from by decide]
  · unfold check_location_match
    rw [show check_location_match_fast "New York, NY" "Mumbai, India" = none from by decide]

/-- A match that reaches the LLM stage contributes nothing to the ranked
list when the LLM call raises: its location gate fails. -/
theorem processMatch_llm_fail_none
    (cos : List ℚ → List ℚ → ℚ) (infer : String → List ℚ)
    (aiAllergy : List String → List String → List String)
    (user_taste_vec : List ℚ) (favorite_dishes : List FavoriteDish)
    (diet_type : Option String) (allergies : List String)
    (qtokens : Finset String) (location_filter cuisine_filter : Option String)
    (query_ingredients : List String) (m : RMatch)
    (h : reachesLLMStage location_filter m = true) :
    processMatch (fun _ _ => none) cos infer aiAllergy user_taste_vec favorite_dishes
      diet_type allergies qtokens location_filter cuisine_filter query_ingredients m
      = none := by
  have hgate : locationGate (fun _ _ => none) location_filter m.location = false := by
    unfold reachesLLMStage at h
    unfold locationGate
    cases location_filter with
    | none => simp at h
    | some lf =>
      cases hml : m.location with
      | none => rw [hml] at h; simp at h
      | some loc =>
        rw [hml] at h
        simp only [decide_eq_true_eq] at h
        show (if lf ≠ "" ∧ loc ≠ "" then
            decide (check_location_match (fun _ _ => none) lf loc = some true)
          else true) = false
        rw [if_pos ⟨h.1, h.2.1⟩]
        have hc : check_location_match (fun _ _ => none) lf loc = none := by
          unfold check_location_match
          rw [h.2.2]
        simp [hc]
  unfold processMatch
  by_cases h1 : filter_dishes_by_diet m.menu_items diet_type = []
  · rw [if_pos h1]
  · rw [if_neg h1]
    by_cases h2 : (if allergies ≠ [] then
        aiAllergy (filter_dishes_by_diet m.menu_items diet_type) allergies
        else filter_dishes_by_diet m.menu_items diet_type) = []
    · rw [if_pos h2]
    · rw [if_neg h2, if_pos hgate]

/-- Dropping list elements on which the function returns `none` anyway does
not change a `filterMap`. -/
theorem filterMap_eq_filterMap_filter {α β : Type} (p : α → Option β) (q : α → Bool)
    (l : List α) (h : ∀ a ∈ l, q a = false → p a = none) :
    l.filterMap p = (l.filter q).filterMap p := by
  induction l with
  | nil => rfl
  | cons a t ih =>
    have ih' := ih (fun x hx hq => h x (List.mem_cons_of_mem a hx) hq)
    cases hq : q a
    · rw [List.filter_cons_of_neg (by simp [hq]), List.filterMap_cons,
        h a (List.mem_cons_self a t) hq]
      exact ih'
    · rw [List.filter_cons_of_pos (by simp [hq])]
      cases hpa : p a <;> simp [List.filterMap_cons, hpa, ih']

/-- C10: when every fast path of `check_location_match` is inconclusive and
the LLM call raises, the exception handler falls off the end of the function
and it returns `None` instead of a boolean; `filter_and_rank_recommendations`
treats that `None` as a location mismatch, so with a raising LLM the ranked
output is exactly what it would be with every restaurant whose location
check reaches the LLM stage removed from the input (fail-closed). -/
theorem check_location_match_llm_failure_fail_closed :
    (∀ u r llm, check_location_match_fast u r = none → llm u r = none →
      check_location_match llm u r = none)
    ∧ ∀ (cos : List ℚ → List ℚ → ℚ) (infer : String → List ℚ)
        (aiAllergy : List String → List String → List String)
        (matchList : List RMatch) (user_taste_vec : List ℚ)
        (favorite_dishes : List FavoriteDish) (diet_type : Option String)
        (allergies : List String) (max_results : ℕ)
        (query_text lf cuisine_filter : Option String)
        (query_ingredients : List String),
      filter_and_rank_recommendations (fun _ _ => none) cos infer aiAllergy matchList
        user_taste_vec favorite_dishes diet_type allergies max_results
        query_text lf cuisine_filter query_ingredients
      = filter_and_rank_recommendations (fun _ _ => none) cos infer aiAllergy
          (matchList.filter (fun m => !reachesLLMStage lf m))
          user_taste_vec favorite_dishes diet_type allergies max_results
          query_text lf cuisine_filter query_ingredients := by
  constructor
  · intro u r llm h1 h2
    unfold check_location_match
    rw [h1]
    exact h2
  · intro cos infer aiAllergy matchList user_taste_vec favorite_dishes diet_type
      allergies max_results query_text lf cuisine_filter query_ingredients
    show (sortDescBy (fun r => r.score) (matchList.filterMap
        (processMatch (fun _ _ => none) cos infer aiAllergy user_taste_vec favorite_dishes
          diet_type allergies (query_tokens query_text) lf cuisine_filter
          query_ingredients))).take max_results
      = (sortDescBy (fun r => r.score) ((matchList.filter
            (fun m => !reachesLLMStage lf m)).filterMap
          (processMatch (fun _ _ => none) cos infer aiAllergy user_taste_vec favorite_dishes
            diet_type allergies (query_tokens query_text) lf cuisine_filter
            query_ingredients))).take max_results
    rw [filterMap_eq_filterMap_filter
      (processMatch (fun _ _ => none) cos infer aiAllergy user_taste_vec favorite_dishes
        diet_type allergies (query_tokens query_text) lf cuisine_filter query_ingredients)
      (fun m => !reachesLLMStage lf m) matchList
      (fun m _ hq => processMatch_llm_fail_none cos infer aiAllergy user_taste_vec
        favorite_dishes diet_type allergies (query_tokens query_text) lf cuisine_filter
        query_ingredients m (by simpa using hq))]

theorem sortDescBy_nil {α : Type} (key : α → ℚ) : sortDescBy key [] = [] := rfl

/-- For a list of non-negative rationals the sum of absolute values is the sum. -/
theorem sum_map_abs_eq (l : List ℚ) (h : ∀ x ∈ l, 0 ≤ x) :
    (l.map (fun x => |x|)).sum = l.sum := by
  induction l with
  | nil => rfl
  | cons a t ih =>
    simp only [List.map_cons, List.sum_cons,
      abs_of_nonneg (h a (List.mem_cons_self a t)),
      ih (fun x hx => h x (List.mem_cons_of_mem a hx))]

/-- A guarded `filterMap` is a `filter` followed by a `map`. -/
theorem filterMap_ite_eq_filter_map {α β : Type} (P : α → Prop) [DecidablePred P]
    (f : α → β) (l : List α) :
    l.filterMap (fun a => if P a then some (f a) else none)
      = (l.filter (fun a => decide (P a))).map f := by
  induction l with
  | nil => rfl
  | cons a t ih =>
    by_cases h : P a <;> simp [List.filterMap_cons, h, ih]

/-- Python round of `0.5 * 100` at one decimal is exactly `50.0`. -/
theorem pyRound1_half100 : pyRound1 ((1 : ℚ)/2 * 100) = 50 := by
  unfold pyRound1 roundHalfEven
  rw [show (10 : ℚ) * ((1 : ℚ)/2 * 100) = ((500 : ℤ) : ℚ) from by norm_num,
    Int.floor_intCast]
  norm_num


/-- C3: in per-restaurant dish ranking, every surviving dish whose taste
vector sums to zero — taste vectors are componentwise non-negative per the
data model, so a zero sum is exactly the all-zero "no signal" sentinel — and
every dish ranked under a user vector summing to zero is reported with
similarity exactly `50` (never `0`, and no NaN can arise since the cosine
value is bypassed); every other surviving dish is reported with its cosine
similarity as a 0-100 percentage (rounded to one decimal), and the output is
sorted descending by similarity, stably, and truncated to `top_n`. -/
theorem dish_recommendations_for_restaurant_spec
    (cos : List ℚ → List ℚ → ℚ) (infer : String → List ℚ)
    (aiAllergy : List String → List String → List String)
    (menu_items : List DishEntry) (user_taste_vec : List ℚ)
    (diet_type : Option String) (allergies : List String) (top_n : ℕ)
    (hu : ∀ x ∈ user_taste_vec, 0 ≤ x)
    (hm : ∀ d ∈ menu_items, ∀ x ∈ d.taste.getD [], 0 ≤ x)
    (hi : ∀ s : String, ∀ x ∈ infer s, 0 ≤ x) :
    dish_recommendations_for_restaurant cos infer aiAllergy menu_items user_taste_vec
        diet_type allergies top_n
      = (sortDescBy (fun s => s.similarity)
          ((menu_items.filter (fun dish =>
              dish.name ∈ survivingNames aiAllergy menu_items diet_type allergies)).map
            (fun dish =>
              (⟨dish.name,
                if (dishTasteOf infer dish).sum = 0 ∨ user_taste_vec.sum = 0 then 50
                else pyRound1 (100 * taste_similarity cos user_taste_vec
                  (dishTasteOf infer dish))⟩ : DishScore)))).take top_n := by
  have hv : ∀ d ∈ menu_items, ∀ x ∈ dishTasteOf infer d, 0 ≤ x := by
    intro d hd x hx
    unfold dishTasteOf at hx
    cases hdt : d.taste with
    | none => rw [hdt] at hx; exact hi d.name x hx
    | some t =>
      rw [hdt] at hx
      have hx2 : x ∈ (if t = [] then infer d.name else t) := hx
      by_cases ht : t = []
      · rw [if_pos ht] at hx2; exact hi d.name x hx2
      · rw [if_neg ht] at hx2
        exact hm d hd x (by rw [hdt]; exact hx2)
  have hscore : ∀ d ∈ menu_items,
      (⟨d.name, pyRound1 ((if (user_taste_vec.map (fun x => |x|)).sum = 0
            ∨ ((dishTasteOf infer d).map (fun x => |x|)).sum = 0
          then (1 : ℚ)/2
          else taste_similarity cos user_taste_vec (dishTasteOf infer d)) * 100)⟩ : DishScore)
      = ⟨d.name, if (dishTasteOf infer d).sum = 0 ∨ user_taste_vec.sum = 0 then 50
          else pyRound1 (100 * taste_similarity cos user_taste_vec
            (dishTasteOf infer d))⟩ := by
    intro d hd
    rw [sum_map_abs_eq user_taste_vec hu, sum_map_abs_eq _ (hv d hd)]
    by_cases hz : (dishTasteOf infer d).sum = 0 ∨ user_taste_vec.sum = 0
    · rw [if_pos hz, if_pos (Or.symm hz), pyRound1_half100]
    · rw [if_neg hz, if_neg (fun hc => hz (Or.symm hc)), mul_comm]
  by_cases h0 : menu_items = []
  · subst h0
    simp [dish_recommendations_for_restaurant, sortDescBy]
  · simp only [dish_recommendations_for_restaurant]
    rw [if_neg h0]
    by_cases h1 : survivingNames aiAllergy menu_items diet_type allergies = []
    · rw [if_pos h1, h1]
      simp [sortDescBy]
    · rw [if_neg h1]
      rw [filterMap_ite_eq_filter_map
        (fun dish : DishEntry =>
          dish.name ∈ survivingNames aiAllergy menu_items diet_type allergies)
        (fun dish : DishEntry =>
          (⟨dish.name, pyRound1 ((if (user_taste_vec.map (fun x => |x|)).sum = 0
                ∨ ((dishTasteOf infer dish).map (fun x => |x|)).sum = 0
              then (1 : ℚ)/2
              else taste_similarity cos user_taste_vec (dishTasteOf infer dish)) * 100)⟩
            : DishScore))
        menu_items]
      rw [List.map_congr_left
        (fun d hd => hscore d (List.mem_of_mem_filter hd))]

/-- Witness for C3 at a concrete menu: one dish with a non-zero taste vector
and one with the zero sentinel, a non-zero user vector, and constant
oracles; all three non-negativity hypotheses are discharged concretely. -/
theorem dish_recommendations_for_restaurant_spec_witness :
    dish_recommendations_for_restaurant cosW inferW aiAllergyW menuW userW none [] 5
      = (sortDescBy (fun s => s.similarity)
          ((menuW.filter (fun dish =>
              dish.name ∈ survivingNames aiAllergyW menuW none [])).map
            (fun dish =>
              (⟨dish.name,
                if (dishTasteOf inferW dish).sum = 0 ∨ userW.sum = 0 then 50
                else pyRound1 (100 * taste_similarity cosW userW
                  (dishTasteOf inferW dish))⟩ : DishScore)))).take 5 :=
  dish_recommendations_for_restaurant_spec cosW inferW aiAllergyW menuW userW none [] 5
    (by
      intro x hx
      simp only [userW] at hx
      fin_cases hx <;> norm_num)
    (by
      intro d hd
      simp only [menuW] at hd
      fin_cases hd <;>
        · intro x hx
          simp only [Option.getD_some] at hx
          fin_cases hx <;> norm_num)
    (by intro s x hx; simp [inferW] at hx)

/-- C8: with the caller and target resolved, a friend request is rejected
with a 400 validation error — leaving the database unchanged, since an error
rolls the session back before any row is added — when the target is the
sender, when a friendship between the two exists in either direction, or
when an identical pending request exists; otherwise exactly one new pending
request row is appended. -/
theorem send_friend_request_spec (db : AppDB) (cid tid newId : String) (cu tu : DBUser)
    (hcu : db.users.find? (fun u => u.cognito_user_id = cid) = some cu)
    (htu : db.users.find? (fun u => u.id = tid) = some tu) :
    ((cu.id = tu.id
        ∨ db.friendships.any (fun f =>
            (f.user1_id = cu.id ∧ f.user2_id = tu.id)
            ∨ (f.user1_id = tu.id ∧ f.user2_id = cu.id)) = true
        ∨ db.friend_requests.any (fun fr =>
            fr.from_user_id = cu.id ∧ fr.to_user_id = tu.id
            ∧ fr.status = "pending") = true) →
      ∃ msg, send_friend_request db cid tid newId = .error (400, msg))
    ∧ (cu.id ≠ tu.id →
        db.friendships.any (fun f =>
            (f.user1_id = cu.id ∧ f.user2_id = tu.id)
            ∨ (f.user1_id = tu.id ∧ f.user2_id = cu.id)) = false →
        db.friend_requests.any (fun fr =>
            fr.from_user_id = cu.id ∧ fr.to_user_id = tu.id
            ∧ fr.status = "pending") = false →
        send_friend_request db cid tid newId
          = .ok ({ db with friend_requests := db.friend_requests
                ++ [⟨newId, cu.id, tu.id, "pending"⟩] },
              "Friend request sent")) := by
  constructor
  · intro hcase
    simp only [send_friend_request, hcu, htu]
    by_cases hself : cu.id = tu.id
    · rw [if_pos hself]; exact ⟨_, rfl⟩
    · rw [if_neg hself]
      by_cases hfr : db.friendships.any (fun f =>
          (f.user1_id = cu.id ∧ f.user2_id = tu.id)
          ∨ (f.user1_id = tu.id ∧ f.user2_id = cu.id)) = true
      · rw [if_pos hfr]; exact ⟨_, rfl⟩
      · rw [if_neg hfr]
        have hpend : db.friend_requests.any (fun fr =>
            fr.from_user_id = cu.id ∧ fr.to_user_id = tu.id
            ∧ fr.status = "pending") = true := by
          rcases hcase with h | h | h
          · exact absurd h hself
          · exact absurd h hfr
          · exact h
        rw [if_pos hpend]; exact ⟨_, rfl⟩
  · intro h1 h2 h3
    simp only [send_friend_request, hcu, htu]
    rw [if_neg h1, if_neg (by rw [h2]; exact Bool.false_ne_true),
      if_neg (by rw [h3]; exact Bool.false_ne_true)]

/-- Witness for C8: Alice sends Bob a friend request in a database with no
prior requests or friendships; all three rejection conditions are false and
one pending row is created. -/
theorem send_friend_request_spec_witness :
    ((aliceW.id = bobW.id
        ∨ dbW.friendships.any (fun f =>
            (f.user1_id = aliceW.id ∧ f.user2_id = bobW.id)
            ∨ (f.user1_id = bobW.id ∧ f.user2_id = aliceW.id)) = true
        ∨ dbW.friend_requests.any (fun fr =>
            fr.from_user_id = aliceW.id ∧ fr.to_user_id = bobW.id
            ∧ fr.status = "pending") = true) →
      ∃ msg, send_friend_request dbW "c1" "u2" "fr1" = .error (400, msg))
    ∧ (aliceW.id ≠ bobW.id →
        dbW.friendships.any (fun f =>
            (f.user1_id = aliceW.id ∧ f.user2_id = bobW.id)
            ∨ (f.user1_id = bobW.id ∧ f.user2_id = aliceW.id)) = false →
        dbW.friend_requests.any (fun fr =>
            fr.from_user_id = aliceW.id ∧ fr.to_user_id = bobW.id
            ∧ fr.status = "pending") = false →
        send_friend_request dbW "c1" "u2" "fr1"
          = .ok ({ dbW with friend_requests := dbW.friend_requests
                ++ [⟨"fr1", aliceW.id, bobW.id, "pending"⟩] },
              "Friend request sent")) :=
  send_friend_request_spec dbW "c1" "u2" "fr1" aliceW bobW (by decide) (by decide)

/-- The truthiness guard on `combined_allergies.update(user.allergies)` is
redundant: adding an empty allergy list to the union changes nothing. -/
theorem foldl_union_guard (l : List (DBGroupMember × DBUser)) (s : Finset String) :
    l.foldl (fun s mu =>
        if mu.2.allergies ≠ [] then s ∪ mu.2.allergies.toFinset else s) s
      = l.foldl (fun s mu => s ∪ mu.2.allergies.toFinset) s := by
  induction l generalizing s with
  | nil => rfl
  | cons a t ih =>
    rw [List.foldl_cons, List.foldl_cons]
    by_cases h : a.2.allergies = []
    · rw [if_neg (fun hne => hne h), h]
      simp only [List.toFinset_nil, Finset.union_empty]
      exact ih s
    · rw [if_pos h]
      exact ih (s ∪ a.2.allergies.toFinset)

/-- C9: with the caller's token resolved to a user and the group found,
`GET /api/groups/{id}/recommendations` answers 200 with the union of the
members' allergies, the per-dimension mean taste vector of the members with
a stored vector, and every member's id, name, taste vector and allergies —
it never checks membership; on the same state a non-member caller gets 403
from the group-detail and add-member endpoints. -/
theorem get_group_recommendations_no_membership_check
    (db : AppDB) (cid gid target newId : String) (cu : DBUser) (g : DBGroup)
    (hcu : db.users.find? (fun u => u.cognito_user_id = cid) = some cu)
    (hg : db.groups.find? (fun gr => gr.id = gid) = some g) :
    get_group_recommendations db cid gid
      = .ok ⟨gid, g.name,
          (if memberTasteVectors db gid = [] then List.replicate 6 0
           else (List.range 6).map (fun i =>
             ((memberTasteVectors db gid).map (fun vec => vec.getD i 0)).sum
               / ((memberTasteVectors db gid).length : ℚ))),
          (groupMembersJoined db gid).foldl (fun s mu => s ∪ mu.2.allergies.toFinset) ∅,
          g.budget, g.location,
          (groupMembersJoined db gid).map (fun mu =>
            (⟨mu.2.id, mu.2.name, mu.2.taste_vector, mu.2.allergies⟩ : GroupRecMember)),
          "Use /api/chat endpoint with group context for recommendations"⟩
    ∧ (db.group_members.any (fun m => m.group_id = gid ∧ m.user_id = cu.id) = false →
        get_group db cid gid = .error (403, "Not a member of this group")
        ∧ add_member db cid gid target newId = .error (403, "Not a member of this group")) := by
  constructor
  · simp only [get_group_recommendations, hcu, hg]
    rw [foldl_union_guard]
  · intro hmem
    constructor
    · simp only [get_group, hcu, hg]
      rw [if_neg (by rw [hmem]; exact Bool.false_ne_true)]
    · simp only [add_member, hcu, hg]
      rw [if_neg (by rw [hmem]; exact Bool.false_ne_true)]

/-- Witness for C9: Alice's token resolves, the group exists, Alice is not a
member — the recommendations endpoint answers 200 for her all the same,
while group detail and add-member answer 403. -/
theorem get_group_recommendations_no_membership_check_witness :
    get_group_recommendations dbW "c1" "g1"
      = .ok ⟨"g1", groupW.name,
          (if memberTasteVectors dbW "g1" = [] then List.replicate 6 0
           else (List.range 6).map (fun i =>
             ((memberTasteVectors dbW "g1").map (fun vec => vec.getD i 0)).sum
               / ((memberTasteVectors dbW "g1").length : ℚ))),
          (groupMembersJoined dbW "g1").foldl (fun s mu => s ∪ mu.2.allergies.toFinset) ∅,
          groupW.budget, groupW.location,
          (groupMembersJoined dbW "g1").map (fun mu =>
            (⟨mu.2.id, mu.2.name, mu.2.taste_vector, mu.2.allergies⟩ : GroupRecMember)),
          "Use /api/chat endpoint with group context for recommendations"⟩
    ∧ (dbW.group_members.any (fun m => m.group_id = "g1" ∧ m.user_id = aliceW.id) = false →
        get_group dbW "c1" "g1" = .error (403, "Not a member of this group")
        ∧ add_member dbW "c1" "g1" "u2" "m2" = .error (403, "Not a member of this group")) :=
  get_group_recommendations_no_membership_check dbW "c1" "g1" "u2" "m2" aliceW groupW
    (by decide) (by decide)
